import Mathlib

/-
Verification of the Matching & Retrieval Engine of the `messy` job-matching
repository, as a shallow embedding in Lean 4.

The embedding translates the Python sources:
  apps/ai/services/rag_service.py        (RAGService)
  apps/ai/services/mercer_job_library.py (MercerJobLibraryService)
  apps/ai/libs/dummy_mercer.py           (DummyJobMatcher)
  apps/services/pdf_service.py           (PDFService)
  apps/services/document_service.py      (DocumentService)

Python floats are modelled as exact rationals; `round(x, 3)` is modelled by
rounding to the nearest thousandth (no value considered here sits at a
rounding tie, where float rounding and exact rounding could differ).
Python sets are modelled as deduplicated lists: only membership and
cardinality of these sets matter to the code, and where the code turns a set
into a list, Python leaves the order unspecified, so the model fixes one
concrete order.  External collaborators (the chromadb vector index, the
pdfplumber and PyPDF2 libraries, the sentence-transformer embedding model,
the MongoDB record store) are modelled as explicit oracle parameters or
small state structures; everything written in the repository itself is
translated directly.
-/

namespace Messy

/-- Python `str.split()` with no argument: split on whitespace and drop empty
pieces. -/
def pySplit (s : String) : List String :=
  (s.split Char.isWhitespace).filter (· ≠ "")

/-- Bool test that `needle` matches the front of `hay` (over character
lists). -/
def matchesFrom : List Char → List Char → Bool
  | [], _ => true
  | _ :: _, [] => false
  | n :: ns, h :: hs => n == h && matchesFrom ns hs

/-- Python substring test `needle in hay`. -/
def strContainsSub (hay needle : String) : Bool :=
  (List.range (hay.data.length + 1)).any (fun i => matchesFrom needle.data (hay.data.drop i))

/-- Python `str.lower()` (ASCII lowering, written over the character list so
that it evaluates inside the kernel). -/
def lowerStr (s : String) : String :=
  ⟨s.data.map Char.toLower⟩

/-!
The library definitions of rational addition, multiplication, inversion and
scientific literals are `@[irreducible]`, so the embedding computes scores
through the following wrappers, built on `mkRat`, which the kernel can
evaluate on closed inputs.  The lemmas `qadd_eq`, `qmul_eq`, `qdiv_eq`,
`qnat_eq` and `round3_eq` identify each wrapper with the ordinary field
operation it implements, so statements about the embedded code can be read
in ordinary arithmetic notation.
-/

/-- Rational addition (equal to `a + b`, see `qadd_eq`). -/
def qadd (a b : ℚ) : ℚ := mkRat (a.num * b.den + b.num * a.den) (a.den * b.den)

/-- Rational multiplication (equal to `a * b`, see `qmul_eq`). -/
def qmul (a b : ℚ) : ℚ := mkRat (a.num * b.num) (a.den * b.den)

/-- Division of a rational by a natural number (equal to `a / n`, see
`qdiv_eq`); the embedded code only ever divides by set cardinalities. -/
def qdiv (a : ℚ) (n : ℕ) : ℚ := mkRat a.num (a.den * n)

/-- The natural number `n` as a rational (equal to `(n : ℚ)`, see
`qnat_eq`). -/
def qnat (n : ℕ) : ℚ := mkRat n 1

/-- Python `round(x, 3)`: round to the nearest thousandth (see `round3_eq`;
`round(x, 3)` on floats rounds ties to even, but no value handled in this
development sits at a tie). -/
def round3 (q : ℚ) : ℚ := mkRat (Rat.floor (qadd (qmul q (qnat 1000)) (mkRat 1 2))) 1000

/-- Rendering of a score with two decimals, modelling the f-string format
specifier `:.2f` (presentation only, no claim depends on its output). -/
def fmt2 (q : ℚ) : String :=
  let n : ℤ := Rat.floor (qadd (qmul q (qnat 100)) (mkRat 1 2))
  toString (n / 100) ++ "." ++ (if (n % 100).natAbs < 10 then "0" else "") ++ toString (n % 100).natAbs

theorem qnat_eq (n : ℕ) : qnat n = (n : ℚ) := by
  simp [qnat]

theorem qadd_eq (a b : ℚ) : qadd a b = a + b := by
  have ha : ((a.den : ℕ) : ℚ) ≠ 0 := Nat.cast_ne_zero.mpr a.den_nz
  have hb : ((b.den : ℕ) : ℚ) ≠ 0 := Nat.cast_ne_zero.mpr b.den_nz
  rw [qadd, Rat.mkRat_eq_div]
  push_cast
  conv_rhs => rw [← Rat.num_div_den a, ← Rat.num_div_den b, div_add_div _ _ ha hb]
  ring_nf

theorem qmul_eq (a b : ℚ) : qmul a b = a * b := by
  rw [qmul, Rat.mkRat_eq_div]
  push_cast
  conv_rhs => rw [← Rat.num_div_den a, ← Rat.num_div_den b, div_mul_div_comm]

theorem qdiv_eq (a : ℚ) (n : ℕ) : qdiv a n = a / n := by
  rw [qdiv, Rat.mkRat_eq_div]
  push_cast
  conv_rhs => rw [← Rat.num_div_den a, div_div]

theorem ratFloor_eq_intFloor (q : ℚ) : Rat.floor q = ⌊q⌋ := by
  rw [Rat.floor_def', Rat.floor_def]

theorem round3_eq (q : ℚ) : round3 q = (⌊q * 1000 + 1/2⌋ : ℚ) / 1000 := by
  rw [round3, Rat.mkRat_eq_div, ratFloor_eq_intFloor, qadd_eq, qmul_eq, qnat_eq]
  norm_num

/-- Python `set(s.lower() for s in xs)`: lower, then deduplicate. -/
def lowerSet (xs : List String) : List String :=
  (xs.map lowerStr).dedup

/-- Intersection of two Python sets (both arguments deduplicated lists). -/
def pyInter (a b : List String) : List String :=
  a.filter (fun s => b.contains s)

/-- Difference of two Python sets (both arguments deduplicated lists). -/
def pyDiff (a b : List String) : List String :=
  a.filter (fun s => !(b.contains s))

/-- Python `a or b` on optional strings: `a` unless it is `None` or empty. -/
def pyOrOpt (a b : Option String) : Option String :=
  match a with
  | some s => if s = "" then b else some s
  | none => b

/-- Python truthiness of an optional string: `None` and `""` are falsy. -/
def pyTruthy (a : Option String) : Option String :=
  match a with
  | some s => if s = "" then none else some s
  | none => none

/-- Stable insertion of `x` into a list sorted by strictly descending `key`:
`x` goes before the first element whose key is not larger.  Elements already
in the list that compare equal to `x` stay behind it, matching the stability
of the Python `list.sort`. -/
def insertDescBy (key : α → ℚ) (x : α) : List α → List α
  | [] => [x]
  | y :: ys => if key y ≤ key x then x :: y :: ys else y :: insertDescBy key x ys

/-- Stable sort by descending key, modelling
`xs.sort(key=..., reverse=True)`. -/
def sortDescBy (key : α → ℚ) : List α → List α
  | [] => []
  | x :: xs => insertDescBy key x (sortDescBy key xs)

/-- A job record, with the fields the matching code reads from the job
dictionaries of the record store. -/
structure Job where
  id : String
  title : String
  description : String := ""
  required_skills : List String
  level : String
  status : String
  department : String := ""
  project_id : String := ""
  responsibilities : List String := []
deriving DecidableEq

/-- A candidate profile dictionary as consumed by the matching code. -/
structure CandidateProfile where
  skills : List String
  years_of_experience : ℕ
  desired_role : String
  experience_summary : String := ""
  education : String := ""
deriving DecidableEq

/-- `MercerMatchResult` dataclass of mercer_job_library.py.  `match_details`
values are pre-rendered to strings (they are only ever string-formatted). -/
structure MercerMatchResult where
  job_id : String
  job_title : String
  match_score : ℚ
  match_details : List (String × String)
  competency_scores : Option (List (String × ℚ))
  skill_gaps : Option (List String)
deriving DecidableEq

/-- `MatchResult` dataclass of rag_service.py. -/
structure MatchResult where
  job_id : String
  job_title : String
  match_score : ℚ
  match_reasons : List String
  missing_skills : List String
  matched_skills : List String
deriving DecidableEq

/-! ### The heuristic fallback matcher
`MercerJobLibraryService._fallback_match` (mercer_job_library.py lines
269-376).  The record-store lookup (`job_service.list_all_jobs`) is an
external collaborator; the list of job dictionaries it returned is passed in
as the `jobs` parameter. -/

/-- Skill overlap score, lines 316-318 of `_fallback_match` (and,
identically, lines 108-110 of `DummyJobMatcher.match`):
`skill_overlap / total_skills`, where `total_skills` is 1 for an empty
required-skill set.  Both argument lists are already lowered and
deduplicated. -/
def overlapScore (candidate_skills job_skills : List String) : ℚ :=
  let skill_overlap := (pyInter candidate_skills job_skills).length
  let total_skills : ℕ := if job_skills = [] then 1 else job_skills.length
  if 0 < total_skills then qdiv (qnat skill_overlap) total_skills else 0

/-- Level score of `_fallback_match`, lines 321-328: 1.0 by default,
penalized on a level/experience mismatch. -/
def fbLevelScore (job_level : String) (exp : ℕ) : ℚ :=
  if job_level ≠ "" then
    if strContainsSub job_level "senior" ∧ exp < 5 then mkRat 6 10
    else if strContainsSub job_level "mid" ∧ exp < 2 then mkRat 7 10
    else if strContainsSub job_level "entry" ∧ 5 < exp then mkRat 8 10
    else 1
  else 1

/-- Title relevance score of `_fallback_match`, lines 330-337 (the
desired-role argument is already lowered). -/
def fbTitleScore (desired_role job_title : String) : ℚ :=
  if desired_role ≠ "" then
    let title_words := (pySplit desired_role).dedup
    let job_words := (pySplit (lowerStr job_title)).dedup
    let common_words := (pyInter title_words job_words).length
    if title_words ≠ [] then min 1 (qdiv (qnat common_words) title_words.length) else 1
  else 1

/-- Loop body of `_fallback_match` for one job (lines 309-366): skill
overlap, level penalty, title relevance, weighted sum, rounded score. -/
def fallbackEntry (cand : CandidateProfile) (job : Job) : MercerMatchResult :=
  let candidate_skills := lowerSet cand.skills
  let candidate_experience := cand.years_of_experience
  let desired_role := lowerStr cand.desired_role
  let job_skills := lowerSet job.required_skills
  let job_level := lowerStr job.level
  let skill_overlap := (pyInter candidate_skills job_skills).length
  let total_skills : ℕ := if job_skills = [] then 1 else job_skills.length
  let skill_score : ℚ := overlapScore candidate_skills job_skills
  let level_score : ℚ := fbLevelScore job_level candidate_experience
  let title_score : ℚ := fbTitleScore desired_role job.title
  let match_score : ℚ :=
    qadd (qadd (qmul skill_score (mkRat 5 10)) (qmul level_score (mkRat 3 10)))
      (qmul title_score (mkRat 2 10))
  let skill_gaps := pyDiff job_skills candidate_skills
  let matched_skills := pyInter candidate_skills job_skills
  { job_id := job.id
    job_title := job.title
    match_score := round3 match_score
    match_details := [("skill_match", toString skill_overlap ++ "/" ++ toString total_skills),
                      ("level_match", toString level_score),
                      ("title_relevance", toString title_score),
                      ("algorithm", "dummy-mercer")]
    competency_scores :=
      if matched_skills = [] then none
      else some (matched_skills.map (fun s => (s, min 1 (qadd match_score (mkRat 1 10)))))
    skill_gaps := some (skill_gaps.take 5) }

/-- The two list filters of `_fallback_match` (lines 300-305): keep the jobs
whose id is in `job_ids` (when that argument is truthy) and whose status is
"published". -/
def fallbackJobsPool (job_ids : Option (List String)) (jobs : List Job) : List Job :=
  let jobs1 :=
    match job_ids with
    | some ids => if ids = [] then jobs else jobs.filter (fun j => ids.contains j.id)
    | none => jobs
  jobs1.filter (fun j => j.status = "published")

/-- `MercerJobLibraryService._fallback_match`: filter, score every job, sort
by descending score (Python list.sort is a stable sort) and cap to
`limit`. -/
def fallbackMatch (cand : CandidateProfile) (job_ids : Option (List String)) (limit : ℕ)
    (jobs : List Job) : List MercerMatchResult :=
  let ms := (fallbackJobsPool job_ids jobs).map (fallbackEntry cand)
  (sortDescBy (·.match_score) ms).take limit

/-! ### The dummy Mercer stub matcher
`DummyJobMatcher.match` (dummy_mercer.py lines 93-139).  The candidate
argument is the dictionary produced by
`_convert_candidate_to_mercer_format`, which carries the same skill list and
years of experience as the profile, so the model reads them directly from
the profile. -/

/-- One match dictionary returned by `DummyJobMatcher.match`. -/
structure DummyMatch where
  job_id : String
  job_title : String
  score : ℚ
  details : List (String × String)
  competency_scores : List (String × ℚ)
  skill_gaps : List String
deriving DecidableEq

/-- Experience bonus of `DummyJobMatcher.match`, lines 113-119: the base
score plus a level-fit bonus. -/
def dmBonusScore (score0 : ℚ) (job_level : String) (exp : ℕ) : ℚ :=
  if strContainsSub job_level "senior" ∧ 5 ≤ exp then qadd score0 (mkRat 2 10)
  else if strContainsSub job_level "mid" ∧ (2 ≤ exp ∧ exp < 5) then qadd score0 (mkRat 1 10)
  else if strContainsSub job_level "entry" ∧ exp < 2 then qadd score0 (mkRat 1 10)
  else score0

/-- Loop body of `DummyJobMatcher.match` for one job (lines 104-135):
overlap score plus an experience bonus, capped at 1.0, rounded to three
decimals. -/
def dummyMatcherEntry (cand : CandidateProfile) (job : Job) : DummyMatch :=
  let candidate_skills := lowerSet cand.skills
  let candidate_exp := cand.years_of_experience
  let job_skills := lowerSet job.required_skills
  let skill_overlap := (pyInter candidate_skills job_skills).length
  let total_skills : ℕ := if job_skills = [] then 1 else job_skills.length
  let score0 : ℚ := overlapScore candidate_skills job_skills
  let job_level := lowerStr job.level
  let score1 : ℚ := dmBonusScore score0 job_level candidate_exp
  let score := min 1 score1
  { job_id := job.id
    job_title := job.title
    score := round3 score
    details := [("skill_match", toString skill_overlap ++ "/" ++ toString total_skills),
                ("algorithm", "dummy-mercer")]
    competency_scores :=
      (pyInter candidate_skills job_skills).map (fun s => (s, qadd score (mkRat 1 10)))
    skill_gaps := (pyDiff job_skills candidate_skills).take 5 }

/-- `DummyJobMatcher.match`: score every job, sort by descending score and
cap to `top_n`. -/
def dummyMatch (cand : CandidateProfile) (jobs : List Job) (top_n : ℕ) : List DummyMatch :=
  (sortDescBy (·.score) (jobs.map (dummyMatcherEntry cand))).take top_n

/-! ### The taxonomy matcher adapter
`MercerJobLibraryService.match_candidate_to_jobs` (mercer_job_library.py
lines 83-137).  `has_mercer_lib` models the module flag `HAS_MERCER_LIB`;
when the real library is importable, the whole try block (format conversion,
job retrieval from the external library, `self.job_matcher.match`, result
conversion) runs against the external Mercer service, which the repository
never ships, so it is modelled by the oracle `realPath`: `none` models
`self.job_matcher` being `None`, `some (.error ())` models the try block
raising, `some (.ok rs)` models it returning converted results. -/

def serviceMatchCandidateToJobs (has_mercer_lib : Bool)
    (realPath : Option (Except Unit (List MercerMatchResult)))
    (cand : CandidateProfile) (job_ids : Option (List String)) (limit : ℕ)
    (jobs : List Job) : List MercerMatchResult :=
  match has_mercer_lib, realPath with
  | false, _ => fallbackMatch cand job_ids limit jobs
  | true, none => fallbackMatch cand job_ids limit jobs
  | true, some (Except.error _) => fallbackMatch cand job_ids limit jobs
  | true, some (Except.ok rs) => rs

/-! ### Spec-side scoring formulas
The following definitions are written from the words of the specification
(sections 4.5 and 4.6), not from the source; the theorems below compare the
embedded code against them. -/

/-- Spec 4.5: the skill-overlap ratio
`|candidate_skills ∩ job_skills| / |job_skills|`, treating an empty
required-skill set as denominator 1. -/
def specSkillFrac (candSkills jobSkills : List String) : ℚ :=
  ((pyInter candSkills jobSkills).length : ℚ) /
    (if jobSkills = [] then 1 else (jobSkills.length : ℚ))

/-- Spec 4.5: the level-fit bonus of the stub matching policy (+0.2 if the
job level is senior and experience ≥ 5; +0.1 if mid and 2 ≤ experience < 5;
+0.1 if entry and experience < 2).  "The job level is senior" is read, as in
the stub, as the lowercased level string containing "senior". -/
def specLevelBonus (job_level : String) (exp : ℕ) : ℚ :=
  if strContainsSub job_level "senior" ∧ 5 ≤ exp then 0.2
  else if strContainsSub job_level "mid" ∧ (2 ≤ exp ∧ exp < 5) then 0.1
  else if strContainsSub job_level "entry" ∧ exp < 2 then 0.1
  else 0

/-- Spec 4.5: the full stub matching policy, skill-overlap ratio adjusted by
the level-fit bonus, clamped to at most 1.0. -/
def specStubScore (cand : CandidateProfile) (job : Job) : ℚ :=
  min 1 (specSkillFrac (lowerSet cand.skills) (lowerSet job.required_skills)
    + specLevelBonus (lowerStr job.level) cand.years_of_experience)

/-- Spec 4.6, heuristic tier: the level score, 1.0 by default and 0.6, 0.7
or 0.8 for a senior, mid or entry level mismatch (a senior-level mismatch
being experience < 5, a mid-level mismatch experience < 2, an entry-level
mismatch experience > 5, with the same containment reading of the level
string as in `specLevelBonus`). -/
def specHeuristicLevel (job_level : String) (exp : ℕ) : ℚ :=
  if strContainsSub job_level "senior" ∧ exp < 5 then 0.6
  else if strContainsSub job_level "mid" ∧ exp < 2 then 0.7
  else if strContainsSub job_level "entry" ∧ 5 < exp then 0.8
  else 1

/-- Spec 4.6, heuristic tier: the title score, the fraction of desired-role
words found in the word set of the job title, 1.0 when the desired role is
empty (also when it consists of whitespace only, so that the set of desired
words is empty and the fraction is degenerate). -/
def specTitleScore (desired : String) (job_title : String) : ℚ :=
  if desired = "" then 1
  else if (pySplit desired).dedup = [] then 1
  else
    ((pyInter ((pySplit desired).dedup) ((pySplit (lowerStr job_title)).dedup)).length : ℚ) /
      (((pySplit desired).dedup).length : ℚ)

/-- Spec 4.6, heuristic tier: the weighted sum
`0.5·skill_score + 0.3·level_score + 0.2·title_score`. -/
def specHeuristicScore (cand : CandidateProfile) (job : Job) : ℚ :=
  1/2 * specSkillFrac (lowerSet cand.skills) (lowerSet job.required_skills)
    + 3/10 * specHeuristicLevel (lowerStr job.level) cand.years_of_experience
    + 1/5 * specTitleScore (lowerStr cand.desired_role) job.title

/-! ### Componentwise agreement of the embedded scores with the spec
formulas -/

theorem overlapScore_eq (cs js : List String) : overlapScore cs js = specSkillFrac cs js := by
  unfold overlapScore specSkillFrac
  by_cases h : js = []
  · simp [h, qdiv_eq, qnat_eq]
  · have hl : 0 < js.length := List.length_pos.mpr h
    simp [h, hl, qdiv_eq, qnat_eq]

theorem fbLevelScore_eq (lvl : String) (exp : ℕ) :
    fbLevelScore lvl exp = specHeuristicLevel lvl exp := by
  have h6 : (mkRat 6 10 : ℚ) = 0.6 := by rw [Rat.mkRat_eq_div]; norm_num
  have h7 : (mkRat 7 10 : ℚ) = 0.7 := by rw [Rat.mkRat_eq_div]; norm_num
  have h8 : (mkRat 8 10 : ℚ) = 0.8 := by rw [Rat.mkRat_eq_div]; norm_num
  unfold fbLevelScore specHeuristicLevel
  by_cases h : lvl = ""
  · subst h
    have hs : strContainsSub "" "senior" = false := rfl
    have hm : strContainsSub "" "mid" = false := rfl
    have he : strContainsSub "" "entry" = false := rfl
    simp [hs, hm, he]
  · simp [h, h6, h7, h8]

theorem fbTitleScore_eq (d t : String) : fbTitleScore d t = specTitleScore d t := by
  unfold fbTitleScore specTitleScore
  by_cases h : d = ""
  · simp [h]
  · by_cases h2 : (pySplit d).dedup = []
    · simp [h, h2]
    · have hlen : (0 : ℚ) < ((pySplit d).dedup.length : ℚ) := by
        exact_mod_cast List.length_pos.mpr h2
      have hle : ((pyInter ((pySplit d).dedup) ((pySplit (lowerStr t)).dedup)).length : ℚ) ≤
          ((pySplit d).dedup.length : ℚ) := by
        exact_mod_cast List.length_filter_le _ _
      simp only [h, h2, if_false, ite_false, ne_eq, not_false_iff, if_true, ite_true,
        qdiv_eq, qnat_eq]
      exact min_eq_right ((div_le_one hlen).mpr hle)

theorem dmBonusScore_eq (cs js : List String) (lvl : String) (exp : ℕ) :
    dmBonusScore (overlapScore cs js) lvl exp = specSkillFrac cs js + specLevelBonus lvl exp := by
  have h2 : (mkRat 2 10 : ℚ) = 0.2 := by rw [Rat.mkRat_eq_div]; norm_num
  have h1 : (mkRat 1 10 : ℚ) = 0.1 := by rw [Rat.mkRat_eq_div]; norm_num
  unfold dmBonusScore specLevelBonus
  rw [overlapScore_eq]
  split_ifs <;> simp [qadd_eq, h1, h2]

/-- The score stored by the fallback loop body is the rounded weighted sum
of the three spec components. -/
theorem fallbackEntry_score_eq (cand : CandidateProfile) (job : Job) :
    (fallbackEntry cand job).match_score = round3 (specHeuristicScore cand job) := by
  have h5 : (mkRat 5 10 : ℚ) = 1/2 := by rw [Rat.mkRat_eq_div]; norm_num
  have h3 : (mkRat 3 10 : ℚ) = 3/10 := by rw [Rat.mkRat_eq_div]; norm_num
  have h2 : (mkRat 2 10 : ℚ) = 1/5 := by rw [Rat.mkRat_eq_div]; norm_num
  show round3 _ = round3 (specHeuristicScore cand job)
  rw [qadd_eq, qadd_eq, qmul_eq, qmul_eq, qmul_eq, overlapScore_eq, fbLevelScore_eq,
    fbTitleScore_eq, h5, h3, h2]
  unfold specHeuristicScore
  ring_nf

/-- The score stored by the dummy matcher loop body is the rounded, clamped
bonus formula of the spec. -/
theorem dummyMatcherEntry_score_eq (cand : CandidateProfile) (job : Job) :
    (dummyMatcherEntry cand job).score = round3 (specStubScore cand job) := by
  show round3 _ = round3 (specStubScore cand job)
  rw [dmBonusScore_eq]
  rfl

/-! ### Membership through the stable sort -/

theorem mem_insertDescBy {key : α → ℚ} {x a : α} {l : List α} :
    a ∈ insertDescBy key x l ↔ a = x ∨ a ∈ l := by
  induction l with
  | nil => simp [insertDescBy]
  | cons y ys ih =>
    unfold insertDescBy
    by_cases h : key y ≤ key x
    · simp [h]
    · simp only [h, if_false, ite_false, List.mem_cons, ih]
      tauto

theorem mem_sortDescBy {key : α → ℚ} {a : α} {l : List α} :
    a ∈ sortDescBy key l ↔ a ∈ l := by
  induction l with
  | nil => simp [sortDescBy]
  | cons y ys ih => simp [sortDescBy, mem_insertDescBy, ih]

/-- Every job of the filtered pool comes from the input list and is
published. -/
theorem mem_fallbackJobsPool {job_ids : Option (List String)} {jobs : List Job} {j : Job}
    (h : j ∈ fallbackJobsPool job_ids jobs) : j ∈ jobs ∧ j.status = "published" := by
  unfold fallbackJobsPool at h
  rcases job_ids with _ | ids
  · have := List.mem_filter.mp h
    exact ⟨this.1, by simpa using this.2⟩
  · by_cases hi : ids = []
    · simp only [hi, if_true, ite_true] at h
      have := List.mem_filter.mp h
      exact ⟨this.1, by simpa using this.2⟩
    · simp only [hi, if_false, ite_false] at h
      have h1 := List.mem_filter.mp h
      have h2 := List.mem_filter.mp h1.1
      exact ⟨h2.1, by simpa using h1.2⟩

/-- Every result of `_fallback_match` is the loop-body entry of some
published input job. -/
theorem mem_fallbackMatch {cand : CandidateProfile} {job_ids : Option (List String)}
    {limit : ℕ} {jobs : List Job} {m : MercerMatchResult}
    (h : m ∈ fallbackMatch cand job_ids limit jobs) :
    ∃ j ∈ jobs, j.status = "published" ∧ m = fallbackEntry cand j := by
  unfold fallbackMatch at h
  have h1 := mem_sortDescBy.mp (List.mem_of_mem_take h)
  obtain ⟨j, hj, rfl⟩ := List.mem_map.mp h1
  obtain ⟨hj1, hj2⟩ := mem_fallbackJobsPool hj
  exact ⟨j, hj1, hj2, rfl⟩

/-! ### The RAG engine
`RAGService` (rag_service.py).  The sentence-transformer model and the
chromadb collection are external collaborators: the model is an oracle
function (present only when the import and initialization succeeded), the
collection a small state structure whose `add` follows the documented
chromadb behaviour, and whose nearest-neighbour `query` is an oracle. -/

/-- The metadata bag stored with an indexed job vector (rag_service.py
lines 144-152; the `skills` entry is stored as a JSON string and modelled
decoded). -/
structure JobMeta where
  title : String
  department : String
  level : String
  status : String
  project_id : String
  skills : List String
deriving DecidableEq

/-- One stored vector entry of the chromadb collection. -/
structure ChromaEntry where
  embedding : List ℚ
  document : String
  meta : JobMeta
deriving DecidableEq

/-- The chromadb collection: entries keyed by id, in insertion order. -/
structure ChromaCollection where
  entries : List (String × ChromaEntry)
deriving DecidableEq

/-- Modelled from the documented behaviour of the external chromadb
`collection.add`: an id that is already present is NOT overwritten — the
library warns about the duplicate id and ignores the new entry (recent
versions raise a duplicate-id error instead; under either behaviour the
stored entry is left unchanged).  Replacement is offered by the separate
`collection.upsert` operation, which the repository does not call. -/
def chromaAdd (c : ChromaCollection) (id : String) (e : ChromaEntry) : ChromaCollection :=
  if (c.entries.map Prod.fst).contains id then c
  else { entries := c.entries ++ [(id, e)] }

/-- One hit returned by the external chromadb nearest-neighbour query. -/
structure QueryHit where
  id : String
  distance : ℚ
  meta : JobMeta
  document : String
deriving DecidableEq

/-- One formatted result of `search_similar_jobs` (lines 205-213). -/
structure SearchHit where
  job_id : String
  score : ℚ
  meta : JobMeta
  document : String
deriving DecidableEq

/-- State of a `RAGService` instance.  `embedding_model` is `none` when the
sentence-transformers import or initialization failed; `collection` is
`none` when chromadb is unavailable.  `mercerOutcome` models
`self.mercer_service` together with the outcome of calling its
`match_candidate_to_jobs` for the request under consideration: `none` means
no service is configured, `some (.error ())` a raising call, `some (.ok ms)`
a call returning `ms`.  `queryFn` is the ranking oracle of the external
vector index (`collection.query`), fed the collection, the query embedding,
`n_results` and the metadata filters. -/
structure RAGState where
  use_mercer : Bool
  mercerOutcome : Option (Except Unit (List MercerMatchResult))
  embedding_model : Option (String → List ℚ)
  collection : Option ChromaCollection
  queryFn : ChromaCollection → List ℚ → ℕ → List (String × String) → List QueryHit

/-- `RAGService.generate_embedding` (lines 100-118): `None` when the model
is absent or the text empty; otherwise the encoded vector (an encoding
error, caught on lines 116-118, is subsumed by the total oracle). -/
def generate_embedding (st : RAGState) (text : String) : Option (List ℚ) :=
  match st.embedding_model with
  | none => none
  | some model => if text = "" then none else some (model text)

/-- `RAGService._create_searchable_text` (lines 419-429). -/
def create_searchable_text (job : Job) : String :=
  String.intercalate " " ([job.title, job.description,
    String.intercalate ", " job.required_skills, job.department, job.level,
    String.intercalate " " job.responsibilities].filter (· ≠ ""))

/-- `RAGService.index_job` (lines 120-164): false when the collection or the
model is absent or the embedding comes back falsy; otherwise the entry is
added to the collection. -/
def index_job (st : RAGState) (job_id : String) (job : Job) : Bool × RAGState :=
  match st.collection, st.embedding_model with
  | some col, some _ =>
    let searchable_text := create_searchable_text job
    (match generate_embedding st searchable_text with
     | none => (false, st)
     | some embedding =>
       if embedding = [] then (false, st)
       else
         let metadata : JobMeta :=
           { title := job.title, department := job.department, level := job.level,
             status := job.status, project_id := job.project_id, skills := job.required_skills }
         (true, { st with collection := some (chromaAdd col job_id
            { embedding := embedding, document := searchable_text, meta := metadata }) }))
  | _, _ => (false, st)

/-- `RAGService.search_similar_jobs` (lines 166-218): empty when the
collection or model is absent or the query embedding comes back `None`;
otherwise the query hits formatted with similarity `1 - distance`. -/
def search_similar_jobs (st : RAGState) (query : String) (limit : ℕ)
    (filters : List (String × String)) : List SearchHit :=
  match st.collection, st.embedding_model with
  | some col, some _ =>
    (match generate_embedding st query with
     | none => []
     | some query_embedding =>
       (st.queryFn col query_embedding limit filters).map (fun h =>
         { job_id := h.id, score := qadd 1 (qmul (mkRat (-1) 1) h.distance),
           meta := h.meta, document := h.document }))
  | _, _ => []

/-- `RAGService._create_candidate_query` (lines 431-439). -/
def create_candidate_query (cand : CandidateProfile) : String :=
  String.intercalate " " ([String.intercalate ", " cand.skills, cand.experience_summary,
    cand.education, cand.desired_role].filter (· ≠ ""))

/-- `RAGService._generate_match_reasons` (lines 441-462). -/
def generate_match_reasons (matched_skills : List String) (level : String) (score : ℚ) :
    List String :=
  (if mkRat 8 10 < score then ["Excellent semantic match"]
   else if mkRat 6 10 < score then ["Strong semantic match"]
   else [])
  ++ (if matched_skills ≠ [] then
        ["Matches " ++ toString matched_skills.length ++ " required skills"] else [])
  ++ (if level ≠ "" then ["Level: " ++ level] else [])

/-- Conversion of one Mercer result into a `MatchResult` (rag_service.py
lines 254-272). -/
def convertMercerMatch (m : MercerMatchResult) : MatchResult :=
  let reasons0 := ["Mercer match score: " ++ fmt2 m.match_score]
  let reasons1 :=
    match m.competency_scores with
    | some cs =>
      if cs ≠ [] then
        reasons0 ++ ["Competency match: " ++ toString cs.length ++ " competencies"]
      else reasons0
    | none => reasons0
  let reasons2 :=
    if m.match_details ≠ [] then
      reasons1 ++ (m.match_details.take 3).map (fun kv => kv.1 ++ ": " ++ kv.2)
    else reasons1
  { job_id := m.job_id
    job_title := m.job_title
    match_score := m.match_score
    match_reasons := reasons2
    missing_skills := m.skill_gaps.getD []
    matched_skills :=
      match m.competency_scores with
      | some cs => if cs ≠ [] then cs.map Prod.fst else []
      | none => [] }

/-- Python `if job_ids and match["job_id"] not in job_ids: continue`
(lines 308-309): keep the hit unless a truthy job-id filter excludes it. -/
def keptByJobIds (job_ids : Option (List String)) (id : String) : Bool :=
  match job_ids with
  | none => true
  | some ids => if ids = [] then true else ids.contains id

/-- The semantic (RAG) fallback path of `match_candidate_to_jobs`
(lines 279-342): candidate query, vector search filtered to published jobs,
skill overlap against the indexed metadata, sort by descending score, cap.
The job title is read from the metadata directly: `index_job` always stores
a title key, so the `.get("title", "Unknown")` default is never taken for
indexed entries. -/
def ragFallbackMatch (st : RAGState) (cand : CandidateProfile)
    (job_ids : Option (List String)) (limit : ℕ) : List MatchResult :=
  match st.collection, st.embedding_model with
  | some _, some _ =>
    let candidate_query := create_candidate_query cand
    let searchHits := search_similar_jobs st candidate_query (limit * 2) [("status", "published")]
    let candidate_skills := lowerSet cand.skills
    let results := (searchHits.take limit).filterMap (fun mtc =>
      if keptByJobIds job_ids mtc.job_id then
        let job_skills_set := lowerSet mtc.meta.skills
        let matched_skills := pyInter candidate_skills job_skills_set
        let missing_skills := pyDiff job_skills_set candidate_skills
        some { job_id := mtc.job_id
               job_title := mtc.meta.title
               match_score := mtc.score
               match_reasons := generate_match_reasons matched_skills mtc.meta.level mtc.score
               missing_skills := missing_skills
               matched_skills := matched_skills }
      else none)
    (sortDescBy (·.match_score) results).take limit
  | _, _ => []

/-- `RAGService.match_candidate_to_jobs` (lines 220-342), the tier state
machine.  The first component is the returned list; the second is true
exactly when control reached the semantic fallback (line 280), i.e. when the
taxonomy tier was skipped, raised, or returned an empty result. -/
def match_candidate_to_jobs (st : RAGState) (cand : CandidateProfile)
    (job_ids : Option (List String)) (limit : ℕ) (use_mercer : Option Bool) :
    List MatchResult × Bool :=
  let should_use_mercer := (use_mercer.getD st.use_mercer) && st.mercerOutcome.isSome
  let mercerReturn : Option (List MatchResult) :=
    if should_use_mercer then
      match st.mercerOutcome with
      | some (Except.ok mercer_matches) =>
        if mercer_matches = [] then none
        else
          let results := mercer_matches.map convertMercerMatch
          if results = [] then none else some (results.take limit)
      | some (Except.error _) => none
      | none => none
    else none
  match mercerReturn with
  | some rs => (rs, false)
  | none => (ragFallbackMatch st cand job_ids limit, true)

/-! ### The PDF text extraction service
`PDFService` (pdf_service.py).  The pdfplumber and PyPDF2 libraries are
external collaborators, modelled as oracles mapping the raw content to
either a parse error (an exception while opening or iterating the file) or a
parsed document.  A raw content blob is modelled as a `String`. -/

/-- The outcome of opening a document with the external pdfplumber library:
per-page `extract_text()` results (`none` models a page with no text) and
the optional document metadata (`pdf.metadata`). -/
structure PlumberDoc where
  pages : List (Option String)
  metaTitle : String := ""
  metaAuthor : String := ""
  metaSubject : String := ""
  hasMeta : Bool := false
deriving DecidableEq

/-- Outcome of `page.extract_text()` for one PyPDF2 page: the call may
raise, return `None`, or return text. -/
inductive Py2Page
  | raised
  | page (t : Option String)
deriving DecidableEq

/-- The outcome of opening a document with the external PyPDF2 library:
like pdfplumber, except that each page extraction may itself raise (caught
and skipped by the service, lines 146-152). -/
structure Pypdf2Doc where
  pages : List Py2Page
  metaTitle : String := ""
  metaAuthor : String := ""
  metaSubject : String := ""
  hasMeta : Bool := false
deriving DecidableEq

/-- Availability and behaviour of the two external PDF libraries.
`has_pypdf2` and `has_pdfplumber` model the module flags `HAS_PYPDF2` and
`HAS_PDFPLUMBER`. -/
structure PdfEnv where
  has_pypdf2 : Bool
  has_pdfplumber : Bool
  plumberOpen : String → Except String PlumberDoc
  pypdf2Open : String → Except String Pypdf2Doc

/-- The extraction result dictionary.  Failure dictionaries (lines 64-70,
113-119, 164-170) carry `success := false` and an error string; success
dictionaries carry the concatenated content, metadata and counts. -/
structure ExtractResult where
  success : Bool
  content : String
  error : Option String
  method : String := ""
  total_pages : ℕ := 0
  metaTitle : String := ""
  metaAuthor : String := ""
  metaSubject : String := ""
  hasMeta : Bool := false
  content_length : ℕ := 0
  word_count : ℕ := 0
deriving DecidableEq

/-- Page markers and concatenation shared by both extractors (lines 89-92
and 146-153): pages whose text is falsy are skipped, the rest get a
one-based page marker, and the pieces are joined with blank lines. -/
def assemblePages (pages : List (Option String)) : String :=
  String.intercalate "\n\n" (pages.enum.filterMap (fun p =>
    match p.2 with
    | some t => if t = "" then none else some ("--- Page " ++ toString (p.1 + 1) ++ " ---\n" ++ t)
    | none => none))

/-- `PDFService._extract_with_pdfplumber` (lines 72-119). -/
def extractWithPdfplumber (env : PdfEnv) (pdf_content : String) : ExtractResult :=
  match env.plumberOpen pdf_content with
  | Except.error e => { success := false, content := "", error := some e }
  | Except.ok doc =>
    let content := assemblePages doc.pages
    { success := true, content := content, error := none, method := "pdfplumber",
      total_pages := doc.pages.length, metaTitle := doc.metaTitle,
      metaAuthor := doc.metaAuthor, metaSubject := doc.metaSubject, hasMeta := doc.hasMeta,
      content_length := content.length, word_count := (pySplit content).length }

/-- `PDFService._extract_with_pypdf2` (lines 121-170); a raising page
extraction is skipped with a warning. -/
def extractWithPypdf2 (env : PdfEnv) (pdf_content : String) : ExtractResult :=
  match env.pypdf2Open pdf_content with
  | Except.error e => { success := false, content := "", error := some e }
  | Except.ok doc =>
    let pageTexts := doc.pages.map (fun p =>
      match p with
      | Py2Page.page t => t
      | Py2Page.raised => none)
    let content := assemblePages pageTexts
    { success := true, content := content, error := none, method := "PyPDF2",
      total_pages := doc.pages.length, metaTitle := doc.metaTitle,
      metaAuthor := doc.metaAuthor, metaSubject := doc.metaSubject, hasMeta := doc.hasMeta,
      content_length := content.length, word_count := (pySplit content).length }

/-- The message of the ImportError raised when no PDF library is available
(lines 41-44). -/
def pdfImportErrorMsg : String :=
  "No PDF processing library available. Please install PyPDF2 or pdfplumber: pip install PyPDF2 pdfplumber"

/-- `PDFService.extract_text_from_pdf` (lines 29-70).  `Except.error`
models an exception escaping the method: the guard of lines 40-44 raises
ImportError BEFORE the try block when neither library is available, so that
exception reaches the caller.  Inside the try block (lines 46-70) every
failure, including the inner ImportError of line 62, is converted to a
failure dictionary. -/
def extract_text_from_pdf (env : PdfEnv) (pdf_path : String) (use_advanced : Bool) :
    Except String ExtractResult :=
  if ¬env.has_pypdf2 ∧ ¬env.has_pdfplumber then Except.error pdfImportErrorMsg
  else Except.ok
    (if use_advanced ∧ env.has_pdfplumber then extractWithPdfplumber env pdf_path
     else if env.has_pypdf2 then extractWithPypdf2 env pdf_path
     else { success := false, content := "", error := some "No PDF processing library available" })

/-- `PDFService.extract_text_from_bytes` (lines 172-183). -/
def extract_text_from_bytes (env : PdfEnv) (pdf_bytes : String) (use_advanced : Bool) :
    Except String ExtractResult :=
  extract_text_from_pdf env pdf_bytes use_advanced

/-! ### The document ingestion pipeline
`DocumentService` (document_service.py).  The MongoDB collections
`job_documents` and `processed_documents` are modelled as lists; `find_one`
returns the first match and `update_one` updates the first match.  The
embedding step (`rag_service.generate_embedding`) is given as an optional
oracle, `none` modelling `self.rag_service is None`. -/

/-- A document of the `job_documents` collection, with the fields the
service reads. -/
structure SourceDoc where
  id : String
  content : Option String := none
  file_content : Option String := none
  job_id : Option String := none
  project_id : Option String := none
  title : Option String := none
  processed : Bool := false
  processed_document_id : Option String := none
deriving DecidableEq

/-- A record of the `processed_documents` collection (lines 96-115). -/
structure ProcessedDoc where
  pid : String
  original_document_id : String
  job_id : Option String
  project_id : Option String
  title : String
  extracted_text : String
  embedding : Option (List ℚ)
  content_length : ℕ
  word_count : ℕ
  status : String
deriving DecidableEq

/-- The two MongoDB collections the service touches. -/
structure DocDB where
  job_documents : List SourceDoc
  processed_documents : List ProcessedDoc
deriving DecidableEq

/-- The result dictionary of `process_document`. -/
structure ProcResult where
  success : Bool
  error : Option String := none
  processed_document_id : Option String := none
  content_length : ℕ := 0
  word_count : ℕ := 0
  has_embedding : Bool := false
deriving DecidableEq

/-- `update_one`: rewrite the first document with the given id. -/
def updateFirst (id : String) (f : SourceDoc → SourceDoc) : List SourceDoc → List SourceDoc
  | [] => []
  | d :: rest => if d.id = id then f d :: rest else d :: updateFirst id f rest

/-- `DocumentService.process_document` (lines 31-146): fetch the document,
check its raw content, extract text, optionally embed, persist a
ProcessedDocument and mark the source document processed.  The whole body
runs inside a try block whose handler (lines 142-146) converts any raised
exception — including the ImportError of the PDF service — into a failure
dictionary.  `ObjectId()` is modelled as a deterministic fresh identifier. -/
def process_document (env : PdfEnv) (embedder : Option (String → Option (List ℚ)))
    (db : DocDB) (document_id : String) (job_id : Option String)
    (generate_embeddings : Bool) : ProcResult × DocDB :=
  match db.job_documents.find? (fun d => d.id = document_id) with
  | none =>
    ({ success := false,
       error := some ("Document " ++ document_id ++ " not found in job_documents") }, db)
  | some document =>
    match pyTruthy (pyOrOpt document.content document.file_content) with
    | none => ({ success := false, error := some "No PDF content found in document" }, db)
    | some pdf_content =>
      match extract_text_from_bytes env pdf_content true with
      | Except.error e => ({ success := false, error := some e }, db)
      | Except.ok pdf_result =>
        if pdf_result.success = false then
          ({ success := false,
             error := some ("PDF extraction failed: " ++ pdf_result.error.getD "None") }, db)
        else
          let extracted_text := pdf_result.content
          let embedding : Option (List ℚ) :=
            if generate_embeddings then
              match embedder with
              | some f => f extracted_text
              | none => none
            else none
          let pid := "oid-" ++ toString db.processed_documents.length
          let processed_doc : ProcessedDoc :=
            { pid := pid
              original_document_id := document.id
              job_id := pyOrOpt job_id document.job_id
              project_id := document.project_id
              title := (pyTruthy document.title).getD
                (if pdf_result.hasMeta then pdf_result.metaTitle else "Untitled")
              extracted_text := extracted_text
              embedding := embedding
              content_length := extracted_text.length
              word_count := (pySplit extracted_text).length
              status := "processed" }
          let db1 : DocDB :=
            { job_documents := updateFirst document_id
                (fun d => { d with processed := true, processed_document_id := some pid })
                db.job_documents
              processed_documents := db.processed_documents ++ [processed_doc] }
          ({ success := true, processed_document_id := some pid,
             content_length := extracted_text.length,
             word_count := (pySplit extracted_text).length,
             has_embedding := embedding.isSome }, db1)

/-- One per-document entry of the batch results list (lines 194-198). -/
structure BatchItem where
  document_id : String
  success : Bool
  error : Option String
deriving DecidableEq

/-- The summary dictionary of `process_all_documents` (lines 174-179). -/
structure BatchSummary where
  total : ℕ
  processed : ℕ
  failed : ℕ
  results : List BatchItem
deriving DecidableEq

/-- The loop of `process_all_documents` (lines 181-198): process each
selected document in order against the evolving database, tallying
successes and failures and appending one result entry per document. -/
def processLoop (env : PdfEnv) (embedder : Option (String → Option (List ℚ)))
    (job_id : Option String) (generate_embeddings : Bool) :
    List SourceDoc → DocDB → (ℕ × ℕ × List BatchItem) × DocDB
  | [], db => ((0, 0, []), db)
  | d :: rest, db =>
    let r := process_document env embedder db d.id (pyOrOpt job_id d.job_id) generate_embeddings
    let rec0 := processLoop env embedder job_id generate_embeddings rest r.2
    let tally := rec0.1
    (((if r.1.success then tally.1 + 1 else tally.1),
      (if r.1.success then tally.2.1 else tally.2.1 + 1),
      ({ document_id := d.id, success := r.1.success, error := r.1.error } : BatchItem)
        :: tally.2.2), rec0.2)

/-- `DocumentService.process_all_documents` (lines 148-206): select the
unprocessed documents (optionally filtered by job id), process each
independently, and return the tally. -/
def process_all_documents (env : PdfEnv) (embedder : Option (String → Option (List ℚ)))
    (db : DocDB) (job_id : Option String) (generate_embeddings : Bool) :
    BatchSummary × DocDB :=
  let documents := db.job_documents.filter (fun d =>
    !d.processed && (match job_id with
                     | some j => d.job_id == some j
                     | none => true))
  let out := processLoop env embedder job_id generate_embeddings documents db
  ({ total := documents.length, processed := out.1.1, failed := out.1.2.1,
     results := out.1.2.2 }, out.2)

/-! ### Concrete fixtures used by witnesses and counterexamples -/

/-- The candidate of the spec section 8 scenario: skills python and docker,
six years of experience, no desired role. -/
def candPD : CandidateProfile :=
  { skills := ["python", "docker"], years_of_experience := 6, desired_role := "" }

/-- The job of the spec section 8 scenario: python, docker and aws required,
senior level, published. -/
def jobPDA : Job :=
  { id := "job-a", title := "Backend Engineer",
    required_skills := ["python", "docker", "aws"], level := "senior", status := "published" }

/-- A published job with seven required skills, none of which the candidate
has. -/
def jobManySkills : Job :=
  { id := "job-m", title := "Platform Engineer",
    required_skills := ["a", "b", "c", "d", "e", "f", "g"], level := "mid",
    status := "published" }

/-- A Mercer-tier result used to exercise the taxonomy short-circuit. -/
def mercerOne : MercerMatchResult :=
  { job_id := "job-a", job_title := "Backend Engineer", match_score := mkRat 9 10,
    match_details := [("algorithm", "mercer")], competency_scores := some [("python", mkRat 8 10)],
    skill_gaps := some ["aws"] }

/-- An engine state whose taxonomy tier returns one result. -/
def stMercerOne : RAGState :=
  { use_mercer := true, mercerOutcome := some (Except.ok [mercerOne]),
    embedding_model := none, collection := none, queryFn := fun _ _ _ _ => [] }

/-- An engine state with no embedding model, no collection and no taxonomy
service. -/
def stNoModel : RAGState :=
  { use_mercer := false, mercerOutcome := none, embedding_model := none,
    collection := none, queryFn := fun _ _ _ _ => [] }

/-- An engine state with a working embedding model and an empty collection. -/
def stIdx : RAGState :=
  { use_mercer := false, mercerOutcome := none,
    embedding_model := some (fun _ => [mkRat 1 1]),
    collection := some { entries := [] }, queryFn := fun _ _ _ _ => [] }

/-- A PDF environment with neither extraction library installed. -/
def envNoLibs : PdfEnv :=
  { has_pypdf2 := false, has_pdfplumber := false,
    plumberOpen := fun _ => Except.error "unused", pypdf2Open := fun _ => Except.error "unused" }

/-- A PDF environment where only pdfplumber is installed and parses a
one-page document. -/
def envPlumberOnly : PdfEnv :=
  { has_pypdf2 := false, has_pdfplumber := true,
    plumberOpen := fun _ => Except.ok { pages := [some "hello world"] },
    pypdf2Open := fun _ => Except.error "unused" }

/-- A PDF environment whose extraction succeeds but yields a document with
no pages, hence no text. -/
def envEmptyText : PdfEnv :=
  { has_pypdf2 := true, has_pdfplumber := true,
    plumberOpen := fun _ => Except.ok { pages := [] },
    pypdf2Open := fun _ => Except.error "unused" }

/-- A source document with raw PDF content, not yet processed. -/
def docD1 : SourceDoc := { id := "d1", content := some "rawpdf" }

/-- A database holding exactly `docD1` and no processed documents. -/
def dbD1 : DocDB := { job_documents := [docD1], processed_documents := [] }

/-! ### C1 -/

/-- C1: for every candidate profile and job set, if the taxonomy (Mercer)
tier returns a non-empty result, the converted results are returned directly
capped to the requested limit and the lower tiers are not entered (second
component false); conversely the engine enters the fallback only when the
taxonomy tier is disabled, unconfigured, raises, or returns an empty
result. -/
theorem taxonomy_tier_shortcircuits :
    (∀ (st : RAGState) (cand : CandidateProfile) (job_ids : Option (List String))
        (limit : ℕ) (um : Option Bool) (ms : List MercerMatchResult),
      st.mercerOutcome = some (Except.ok ms) → ms ≠ [] → um.getD st.use_mercer = true →
      match_candidate_to_jobs st cand job_ids limit um
        = ((ms.map convertMercerMatch).take limit, false))
    ∧ (∀ (st : RAGState) (cand : CandidateProfile) (job_ids : Option (List String))
        (limit : ℕ) (um : Option Bool),
      (match_candidate_to_jobs st cand job_ids limit um).2 = true →
      um.getD st.use_mercer = false ∨ st.mercerOutcome = none
        ∨ st.mercerOutcome = some (Except.error ())
        ∨ st.mercerOutcome = some (Except.ok ([] : List MercerMatchResult))) := by
  constructor
  · intro st cand job_ids limit um ms hout hne hflag
    have hmap : ms.map convertMercerMatch ≠ [] := by
      simpa using hne
    simp [match_candidate_to_jobs, hout, hflag, hne, hmap]
  · intro st cand job_ids limit um h
    by_cases hflag : um.getD st.use_mercer = false
    · exact Or.inl hflag
    · have hflag' : um.getD st.use_mercer = true := by
        revert hflag; cases um.getD st.use_mercer <;> simp
      rcases hout : st.mercerOutcome with _ | x
      · exact Or.inr (Or.inl rfl)
      · rcases x with e | ms
        · cases e
          exact Or.inr (Or.inr (Or.inl rfl))
        · by_cases hms : ms = []
          · subst hms
            exact Or.inr (Or.inr (Or.inr rfl))
          · exfalso
            have hmap : ms.map convertMercerMatch ≠ [] := by simpa using hms
            simp [match_candidate_to_jobs, hout, hflag', hms, hmap] at h

/-- C1 witness: a state whose taxonomy tier returns one result
short-circuits, and an unconfigured state reaching the fallback satisfies
the disjunction. -/
theorem taxonomy_tier_shortcircuits_witness :
    match_candidate_to_jobs stMercerOne candPD none 10 none
      = (([mercerOne].map convertMercerMatch).take 10, false) :=
  taxonomy_tier_shortcircuits.1 stMercerOne candPD none 10 none [mercerOne] rfl
    (by decide) rfl

/-! ### C7 -/

/-- Each step of the batch loop adds exactly one to either tally and one
entry to the results list. -/
theorem processLoop_tally (env : PdfEnv) (embedder : Option (String → Option (List ℚ)))
    (job_id : Option String) (gen : Bool) :
    ∀ (docs : List SourceDoc) (db : DocDB),
      (processLoop env embedder job_id gen docs db).1.1
          + (processLoop env embedder job_id gen docs db).1.2.1 = docs.length
        ∧ (processLoop env embedder job_id gen docs db).1.2.2.length = docs.length := by
  intro docs
  induction docs with
  | nil => intro db; simp [processLoop]
  | cons d rest ih =>
    intro db
    have ihd := ih (process_document env embedder db d.id (pyOrOpt job_id d.job_id) gen).2
    by_cases h : (process_document env embedder db d.id (pyOrOpt job_id d.job_id) gen).1.success
    · simp [processLoop, h]
      omega
    · simp [processLoop, h]
      omega

/-- C7: for every batch, the summary tallies satisfy
processed + failed = N and the per-item results list has length exactly N,
where N is the number of selected unprocessed documents (the reported
total); no per-document failure aborts the loop. -/
theorem batch_tally_and_results_length (env : PdfEnv)
    (embedder : Option (String → Option (List ℚ))) (db : DocDB)
    (job_id : Option String) (gen : Bool) :
    (process_all_documents env embedder db job_id gen).1.processed
        + (process_all_documents env embedder db job_id gen).1.failed
        = (process_all_documents env embedder db job_id gen).1.total
      ∧ (process_all_documents env embedder db job_id gen).1.results.length
        = (process_all_documents env embedder db job_id gen).1.total := by
  unfold process_all_documents
  exact processLoop_tally env embedder job_id gen _ db

/-! ### C10 -/

/-- C10: every MatchResult converted from the taxonomy fallback path has a
missing-skills list of at most 5 entries. -/
theorem fallback_skill_gaps_capped_at_five (cand : CandidateProfile)
    (job_ids : Option (List String)) (limit : ℕ) (jobs : List Job)
    (m : MercerMatchResult) (h : m ∈ fallbackMatch cand job_ids limit jobs) :
    (convertMercerMatch m).missing_skills.length ≤ 5 := by
  obtain ⟨j, _, _, rfl⟩ := mem_fallbackMatch h
  show ((fallbackEntry cand j).skill_gaps.getD []).length ≤ 5
  have : (fallbackEntry cand j).skill_gaps
      = some ((pyDiff (lowerSet j.required_skills) (lowerSet cand.skills)).take 5) := rfl
  rw [this]
  exact List.length_take_le 5 _

/-- C10 witness: a published job with seven required skills the candidate
lacks still yields at most five missing skills, while the raw gap list has
seven entries. -/
theorem fallback_skill_gaps_capped_at_five_witness :
    (convertMercerMatch (fallbackEntry candPD jobManySkills)).missing_skills.length ≤ 5
      ∧ (pyDiff (lowerSet jobManySkills.required_skills) (lowerSet candPD.skills)).length = 7 :=
  ⟨fallback_skill_gaps_capped_at_five candPD none 10 [jobManySkills]
      (fallbackEntry candPD jobManySkills) (by decide),
    by decide⟩

/-! ### C9 -/

/-- C9: with the embedding model absent, `generate_embedding` returns
`None`, `index_job` returns `False` leaving the state unchanged, and
`search_similar_jobs` returns an empty list; `generate_embedding` also
returns `None` on empty input text. -/
theorem absent_model_safe_defaults :
    (∀ st : RAGState, st.embedding_model = none →
      (∀ text, generate_embedding st text = none)
        ∧ (∀ jid job, index_job st jid job = (false, st))
        ∧ (∀ q limit filters, search_similar_jobs st q limit filters = []))
    ∧ (∀ st : RAGState, generate_embedding st "" = none) := by
  constructor
  · intro st h
    refine ⟨?_, ?_, ?_⟩
    · intro text
      simp [generate_embedding, h]
    · intro jid job
      cases hc : st.collection <;> simp [index_job, h, hc]
    · intro q limit filters
      cases hc : st.collection <;> simp [search_similar_jobs, h, hc]
  · intro st
    cases hm : st.embedding_model <;> simp [generate_embedding, hm]

/-- C9 witness: the three operations on a concrete model-less state, and
the empty-text case. -/
theorem absent_model_safe_defaults_witness :
    generate_embedding stNoModel "python developer" = none
      ∧ index_job stNoModel "job-a" jobPDA = (false, stNoModel)
      ∧ search_similar_jobs stNoModel "query" 5 [] = []
      ∧ generate_embedding stIdx "" = none :=
  ⟨(absent_model_safe_defaults.1 stNoModel rfl).1 "python developer",
    (absent_model_safe_defaults.1 stNoModel rfl).2.1 "job-a" jobPDA,
    (absent_model_safe_defaults.1 stNoModel rfl).2.2 "query" 5 [],
    absent_model_safe_defaults.2 stIdx⟩

/-! ### Evaluation of the spec formulas on the section 8 scenario -/

theorem specSkillFrac_scenario :
    specSkillFrac (lowerSet candPD.skills) (lowerSet jobPDA.required_skills) = 2/3 := by
  have h1 : (pyInter (lowerSet candPD.skills) (lowerSet jobPDA.required_skills)).length = 2 := by
    decide
  have h2 : lowerSet jobPDA.required_skills = ["python", "docker", "aws"] := by decide
  unfold specSkillFrac
  rw [h1, h2]
  norm_num
  rw [if_neg (show ¬(["python", "docker", "aws"] : List String) = [] by decide)]

theorem specLevelBonus_scenario :
    specLevelBonus (lowerStr jobPDA.level) candPD.years_of_experience = 1/5 := by
  have hs : strContainsSub (lowerStr jobPDA.level) "senior" = true := by decide
  unfold specLevelBonus
  rw [hs, show candPD.years_of_experience = 6 from rfl]
  norm_num

theorem specHeuristicLevel_scenario :
    specHeuristicLevel (lowerStr jobPDA.level) candPD.years_of_experience = 1 := by
  have hs : strContainsSub (lowerStr jobPDA.level) "senior" = true := by decide
  have hm : strContainsSub (lowerStr jobPDA.level) "mid" = false := by decide
  have he : strContainsSub (lowerStr jobPDA.level) "entry" = false := by decide
  unfold specHeuristicLevel
  rw [hs, hm, he, show candPD.years_of_experience = 6 from rfl]
  norm_num

theorem specTitleScore_scenario :
    specTitleScore (lowerStr candPD.desired_role) jobPDA.title = 1 := by
  rw [show lowerStr candPD.desired_role = "" from rfl]
  unfold specTitleScore
  simp

/-- On the scenario, the stub bonus policy of spec 4.5 yields
`2/3 + 0.2 = 13/15`. -/
theorem specStubScore_scenario : specStubScore candPD jobPDA = mkRat 13 15 := by
  unfold specStubScore
  rw [specSkillFrac_scenario, specLevelBonus_scenario,
    min_eq_right (by norm_num : (2:ℚ)/3 + 1/5 ≤ 1), Rat.mkRat_eq_div]
  norm_num

/-- On the scenario, the heuristic weighted sum of spec 4.6 yields
`1/2 * 2/3 + 3/10 + 1/5 = 5/6`. -/
theorem specHeuristicScore_scenario : specHeuristicScore candPD jobPDA = mkRat 5 6 := by
  unfold specHeuristicScore
  rw [specSkillFrac_scenario, specHeuristicLevel_scenario, specTitleScore_scenario,
    Rat.mkRat_eq_div]
  norm_num

/-! ### C5 -/

/-- C5 counterexample: on the scenario (skills python and docker, job
skills python, docker, aws, senior level, 6 years, no desired role) the
heuristic tier returns 0.833, not the claimed 0.8335. -/
theorem scenario_score_not_08335 :
    (fallbackMatch candPD none 10 [jobPDA]).map (·.match_score) = [mkRat 833 1000]
      ∧ (0.8335 : ℚ) = mkRat 8335 10000
      ∧ (mkRat 833 1000 : ℚ) ≠ mkRat 8335 10000 := by
  refine ⟨by decide, ?_, by decide⟩
  rw [Rat.mkRat_eq_div]
  norm_num

/-- C5 amended: on the scenario the weighted sum is `5/6 ≈ 0.8333` and the
returned heuristic score is that sum rounded to three decimals, 0.833 (the
claimed 0.8335 came from rounding 2/3 to 0.667 before weighting). -/
theorem scenario_score_0833 :
    specHeuristicScore candPD jobPDA = mkRat 5 6
      ∧ (fallbackMatch candPD none 10 [jobPDA]).map (·.match_score)
          = [round3 (specHeuristicScore candPD jobPDA)]
      ∧ round3 (specHeuristicScore candPD jobPDA) = (0.833 : ℚ) := by
  refine ⟨specHeuristicScore_scenario, ?_, ?_⟩
  · rw [specHeuristicScore_scenario]
    decide
  · rw [specHeuristicScore_scenario,
      show (0.833 : ℚ) = mkRat 833 1000 by rw [Rat.mkRat_eq_div]; norm_num]
    decide

/-! ### C4 -/

/-- C4 counterexample: the heuristic-tier match score is not equal to the
weighted sum itself — on the scenario the sum is 5/6 but 0.833 is
returned. -/
theorem heuristic_rounding_counterexample :
    (fallbackMatch candPD none 10 [jobPDA]).map (·.match_score) = [mkRat 833 1000]
      ∧ specHeuristicScore candPD jobPDA = mkRat 5 6
      ∧ (mkRat 833 1000 : ℚ) ≠ mkRat 5 6 :=
  ⟨by decide, specHeuristicScore_scenario, by decide⟩

/-- C4 amended: every heuristic-tier result scores some published input job
with the weighted sum `0.5·skill + 0.3·level + 0.2·title` rounded to three
decimals (components as in `specHeuristicScore`, with the mismatch
conditions of `specHeuristicLevel`). -/
theorem heuristic_score_weighted_sum_rounded (cand : CandidateProfile)
    (job_ids : Option (List String)) (limit : ℕ) (jobs : List Job)
    (m : MercerMatchResult) (h : m ∈ fallbackMatch cand job_ids limit jobs) :
    ∃ j ∈ jobs, j.status = "published" ∧ m.match_score = round3 (specHeuristicScore cand j) := by
  obtain ⟨j, hj, hpub, rfl⟩ := mem_fallbackMatch h
  exact ⟨j, hj, hpub, fallbackEntry_score_eq cand j⟩

/-- C4 witness: applied to the scenario result. -/
theorem heuristic_score_weighted_sum_rounded_witness :
    ∃ j ∈ [jobPDA], j.status = "published"
      ∧ (fallbackEntry candPD jobPDA).match_score = round3 (specHeuristicScore candPD j) :=
  heuristic_score_weighted_sum_rounded candPD none 10 [jobPDA]
    (fallbackEntry candPD jobPDA) (by decide)

/-! ### C3 -/

/-- C3 counterexample: with the Mercer library absent, the adapter scores
the scenario pair 0.833 (the weighted-sum fallback), while the claimed
bonus policy gives 13/15, i.e. 0.867 after rounding — so the adapter does
not score by the claimed formula. -/
theorem adapter_absent_policy_counterexample :
    (serviceMatchCandidateToJobs false none candPD none 10 [jobPDA]).map (·.match_score)
        = [mkRat 833 1000]
      ∧ round3 (specStubScore candPD jobPDA) = mkRat 867 1000
      ∧ (mkRat 833 1000 : ℚ) ≠ mkRat 13 15
      ∧ (mkRat 833 1000 : ℚ) ≠ mkRat 867 1000 := by
  refine ⟨by decide, ?_, by decide, by decide⟩
  rw [specStubScore_scenario]
  decide

/-- C3 amended: when the Mercer capability is absent the adapter delegates
to the weighted-sum fallback heuristic; the claimed bonus policy
(skill-overlap ratio plus level-fit bonus, clamped to 1.0, rounded to three
decimals) is implemented by the DummyJobMatcher stub, which the adapter
does not invoke on that path. -/
theorem adapter_absent_uses_fallback_and_stub_policy :
    (∀ (rp : Option (Except Unit (List MercerMatchResult))) (cand : CandidateProfile)
        (job_ids : Option (List String)) (limit : ℕ) (jobs : List Job),
      serviceMatchCandidateToJobs false rp cand job_ids limit jobs
        = fallbackMatch cand job_ids limit jobs)
    ∧ (∀ (cand : CandidateProfile) (jobs : List Job) (top_n : ℕ) (d : DummyMatch),
      d ∈ dummyMatch cand jobs top_n →
      ∃ j ∈ jobs, d.score = round3 (specStubScore cand j)) := by
  constructor
  · intro rp cand job_ids limit jobs
    rfl
  · intro cand jobs top_n d h
    unfold dummyMatch at h
    have h1 := mem_sortDescBy.mp (List.mem_of_mem_take h)
    obtain ⟨j, hj, rfl⟩ := List.mem_map.mp h1
    exact ⟨j, hj, dummyMatcherEntry_score_eq cand j⟩

/-- C3 witness: the adapter delegation and the stub policy at the scenario
input. -/
theorem adapter_absent_uses_fallback_and_stub_policy_witness :
    serviceMatchCandidateToJobs false none candPD none 10 [jobPDA]
        = fallbackMatch candPD none 10 [jobPDA]
      ∧ ∃ j ∈ [jobPDA],
          (dummyMatcherEntry candPD jobPDA).score = round3 (specStubScore candPD j) :=
  ⟨adapter_absent_uses_fallback_and_stub_policy.1 none candPD none 10 [jobPDA],
    adapter_absent_uses_fallback_and_stub_policy.2 candPD [jobPDA] 5
      (dummyMatcherEntry candPD jobPDA) (by decide)⟩

/-! ### C2 -/

/-- C2 counterexample: with both extraction libraries absent, the extractor
raises (the guard sits before the try block), so the caller does not
receive a result object. -/
theorem extract_raises_when_both_libs_absent :
    extract_text_from_pdf envNoLibs "blob" true = Except.error pdfImportErrorMsg := rfl

/-- C2 amended: whenever at least one extraction library is available, the
extractor never throws — the caller receives a result object carrying a
success flag and, on failure, an error message; when both libraries are
absent it raises ImportError instead of returning a result. -/
theorem extract_returns_result_when_lib_present (env : PdfEnv) (pdf_path : String)
    (use_advanced : Bool) (h : env.has_pypdf2 = true ∨ env.has_pdfplumber = true) :
    ∃ r : ExtractResult, extract_text_from_pdf env pdf_path use_advanced = Except.ok r
      ∧ (r.success = false → r.error.isSome = true) := by
  unfold extract_text_from_pdf
  have hguard : ¬(¬env.has_pypdf2 ∧ ¬env.has_pdfplumber) := by
    rcases h with h | h <;> simp [h]
  rw [if_neg hguard]
  by_cases h1 : (use_advanced : Prop) ∧ (env.has_pdfplumber : Prop)
  · rw [if_pos h1]
    refine ⟨extractWithPdfplumber env pdf_path, rfl, ?_⟩
    unfold extractWithPdfplumber
    cases env.plumberOpen pdf_path <;> simp
  · rw [if_neg h1]
    by_cases h2 : (env.has_pypdf2 : Prop)
    · rw [if_pos h2]
      refine ⟨extractWithPypdf2 env pdf_path, rfl, ?_⟩
      unfold extractWithPypdf2
      cases env.pypdf2Open pdf_path <;> simp
    · rw [if_neg h2]
      exact ⟨_, rfl, by simp⟩

/-- C2 witness: with pdfplumber alone available the extractor returns a
result object. -/
theorem extract_returns_result_when_lib_present_witness :
    ∃ r : ExtractResult, extract_text_from_pdf envPlumberOnly "doc" true = Except.ok r
      ∧ (r.success = false → r.error.isSome = true) :=
  extract_returns_result_when_lib_present envPlumberOnly "doc" true (Or.inr rfl)

/-! ### C6 -/

/-- C6 counterexample: a successful extraction that yields no text does not
fail fast — `process_document` reports success, creates a ProcessedDocument
with empty extracted text, and marks the source document processed. -/
theorem empty_text_still_creates_record :
    (process_document envEmptyText none dbD1 "d1" none true).1.success = true
      ∧ ((process_document envEmptyText none dbD1 "d1" none true).2.processed_documents.map
          (·.extracted_text)) = [""]
      ∧ ((process_document envEmptyText none dbD1 "d1" none true).2.job_documents.map
          (·.processed)) = [true] := by
  refine ⟨by decide, by decide, by decide⟩

/-- C6 amended: whenever extraction fails (the extractor raises, or reports
success false), `process_document` returns a failure result with an error
reason, creates no ProcessedDocument, and leaves the source documents —
including the processed flag — unchanged.  (A successful extraction with
empty text instead proceeds and creates a record, see the
counterexample.) -/
theorem extraction_failure_fails_without_record (env : PdfEnv)
    (embedder : Option (String → Option (List ℚ))) (db : DocDB)
    (document_id : String) (job_id : Option String) (gen : Bool)
    (doc : SourceDoc) (c : String)
    (hfind : db.job_documents.find? (fun d => d.id = document_id) = some doc)
    (hcontent : pyTruthy (pyOrOpt doc.content doc.file_content) = some c)
    (hfail : ∀ r : ExtractResult,
      extract_text_from_bytes env c true = Except.ok r → r.success = false) :
    (process_document env embedder db document_id job_id gen).1.success = false
      ∧ (process_document env embedder db document_id job_id gen).1.error.isSome = true
      ∧ (process_document env embedder db document_id job_id gen).2 = db := by
  cases hx : extract_text_from_bytes env c true with
  | error e => simp [process_document, hfind, hcontent, hx]
  | ok r =>
    have hrf := hfail r hx
    simp [process_document, hfind, hcontent, hx, hrf]

/-- C6 witness: a raising extraction (no library installed) on a concrete
database. -/
theorem extraction_failure_fails_without_record_witness :
    (process_document envNoLibs none dbD1 "d1" none true).1.success = false
      ∧ (process_document envNoLibs none dbD1 "d1" none true).1.error.isSome = true
      ∧ (process_document envNoLibs none dbD1 "d1" none true).2 = dbD1 :=
  extraction_failure_fails_without_record envNoLibs none dbD1 "d1" none true docD1 "rawpdf"
    (by decide) (by decide)
    (by
      intro r h
      rw [show extract_text_from_bytes envNoLibs "rawpdf" true
          = Except.error pdfImportErrorMsg from rfl] at h
      exact Except.noConfusion h)

/-! ### C8 -/

/-- C8: indexing the same job id twice leaves exactly one entry, but the
second call does NOT replace the first — the collection add ignores the
duplicate id, so the stored document is still the first payload even though
both calls report success.  (The spec requires upsert semantics; the code
calls the add operation of the index instead of its upsert operation.) -/
theorem reindex_add_does_not_replace :
    (index_job stIdx "job-1" jobPDA).1 = true
      ∧ (index_job (index_job stIdx "job-1" jobPDA).2 "job-1" jobManySkills).1 = true
      ∧ (((index_job (index_job stIdx "job-1" jobPDA).2 "job-1" jobManySkills).2.collection.getD
            { entries := [] }).entries.map (fun p => (p.1, p.2.document)))
          = [("job-1", create_searchable_text jobPDA)]
      ∧ create_searchable_text jobPDA ≠ create_searchable_text jobManySkills := by
  refine ⟨by decide, by decide, by decide, by decide⟩

end Messy
